import Mathlib

/-!
Shallow embedding of the MPU6886 MicroPython driver (mpu6886.py).

Registers are bytes; the register file is modelled as `Nat → Nat`, with every
read reduced modulo 256 (a byte buffer read).  Bus traffic is recorded as a
trace of events, so that claims about which transactions a call issues (and in
which order) can be stated as trace equalities.
-/

/-- One transaction on the serial bus.
`readMem r n` is `i2c.readfrom_mem_into(addr, r, buf)` with `len(buf) = n`;
`writeMem r data` is `i2c.writeto_mem(addr, r, data)`. -/
inductive Ev where
  | readMem (reg : Nat) (len : Nat)
  | writeMem (reg : Nat) (data : List Nat)
  deriving DecidableEq

/-- Device-register state plus the trace of bus transactions issued so far. -/
structure St where
  regs : Nat → Nat
  trace : List Ev

/-- Python's `x & ~m` on non-negative integers: clear in `x` the bits of `m`. -/
def andNot (x m : Nat) : Nat := x - (x &&& m)

/-- Python exceptions raised by the driver. -/
inductive PyErr where
  | keyError (key : Nat)
  | valueError (msg : String)
  | zeroDivisionError
  | typeError
  | assertionError
  deriving DecidableEq

/-- Register addresses used by the driver (const values in mpu6886.py). -/
def CONFIG_REG : Nat := 0x1a

def GYRO_CONFIG_REG : Nat := 0x1b

def ACCEL_CONFIG_REG : Nat := 0x1c

def ACCEL_CONFIG2_REG : Nat := 0x1d

def SMPLRT_DIV_REG : Nat := 0x19

def GYRO_XOUT_H : Nat := 0x43

def PWR_MGMT_1_REG : Nat := 0x6b

def FIFO_EN_REG : Nat := 0x23

def USER_CTRL_REG : Nat := 0x6a

def FIFO_COUNTH_REG : Nat := 0x72

def FIFO_R_W_REG : Nat := 0x74

/-- `_register_char(register)` (read form): one 1-byte bus read, returning the
byte at `register`. -/
def register_char_read (register : Nat) (s : St) : Nat × St :=
  (s.regs register % 256,
   { s with trace := s.trace ++ [Ev.readMem register 1] })

/-- `_register_char(register, value)` (write form): pack the low byte of
`value` and issue one 1-byte bus write, updating the register file. -/
def register_char_write (register value : Nat) (s : St) : St :=
  { regs := fun r => if r = register then value % 256 else s.regs r,
    trace := s.trace ++ [Ev.writeMem register [value % 256]] }

/-- Accelerometer full-scale selector bit patterns. -/
def ACCEL_FS_SEL_2G : Nat := 0b00000000

def ACCEL_FS_SEL_4G : Nat := 0b00001000

def ACCEL_FS_SEL_8G : Nat := 0b00010000

def ACCEL_FS_SEL_16G : Nat := 0b00011000

/-- Gyroscope full-scale selector bit patterns. -/
def GYRO_FS_SEL_250DPS : Nat := 0b00000000

def GYRO_FS_SEL_500DPS : Nat := 0b00001000

def GYRO_FS_SEL_1000DPS : Nat := 0b00010000

def GYRO_FS_SEL_2000DPS : Nat := 0b00011000

/-- `_accel_fs(value)`: write the selector to ACCEL_CONFIG, then return the
sensitivity divider from the if/elif chain (`none` models Python's implicit
`None` for an unrecognized selector). -/
def accel_fs (value : Nat) (s : St) : Option ℚ × St :=
  let s1 := register_char_write ACCEL_CONFIG_REG value s
  (if value = ACCEL_FS_SEL_2G then some 16384
   else if value = ACCEL_FS_SEL_4G then some 8192
   else if value = ACCEL_FS_SEL_8G then some 4096
   else if value = ACCEL_FS_SEL_16G then some 2048
   else none, s1)

/-- `_gyro_fs(value)`: write the selector to GYRO_CONFIG, then return the
sensitivity divider from the if/elif chain. -/
def gyro_fs (value : Nat) (s : St) : Option ℚ × St :=
  let s1 := register_char_write GYRO_CONFIG_REG value s
  (if value = GYRO_FS_SEL_250DPS then some 131
   else if value = GYRO_FS_SEL_500DPS then some 62.5
   else if value = GYRO_FS_SEL_1000DPS then some 32.8
   else if value = GYRO_FS_SEL_2000DPS then some 16.4
   else none, s1)

set_option linter.unusedVariables false in
/-- `fifo_enable(enable)`: three read-modify-write sequences on CONFIG,
FIFO_EN and USER_CTRL.  The `enable` argument appears in the signature but is
never consulted by the body, exactly as in the source. -/
def fifo_enable (enable : α) (s : St) : St :=
  let p1 := register_char_read CONFIG_REG s
  let v1 := andNot (andNot p1.1 (1 <<< 7)) (1 <<< 6)
  let s1 := register_char_write CONFIG_REG v1 p1.2
  let p2 := register_char_read FIFO_EN_REG s1
  let v2 := p2.1 ||| (1 <<< 3)
  let s2 := register_char_write FIFO_EN_REG v2 p2.2
  let p3 := register_char_read USER_CTRL_REG s2
  let v3 := (p3.1 ||| (1 <<< 6)) ||| (1 <<< 2)
  register_char_write USER_CTRL_REG v3 p3.2

/-- The `samplerate_div` dictionary in `set_odr`: ODR in Hz to divisor. -/
def samplerate_div (odr : Nat) : Option Nat :=
  if odr = 10 then some 99
  else if odr = 50 then some 19
  else if odr = 100 then some 9
  else if odr = 200 then some 4
  else if odr = 250 then some 3
  else none

/-- `set_odr(odr)`.  The body writes PWR_MGMT_1 (low-power cycle) and
ACCEL_CONFIG2 (filter/averaging) BEFORE looking `odr` up in the dictionary;
a missing key raises `KeyError` at that point, with those two writes already
issued.  On success it continues with SMPLRT_DIV, GYRO_CONFIG and CONFIG.
The result carries the state reached when the call returns or raises. -/
def set_odr (odr : Nat) (s : St) : St × Option PyErr :=
  let p1 := register_char_read PWR_MGMT_1_REG s
  let s1 := register_char_write PWR_MGMT_1_REG (p1.1 ||| (1 <<< 5)) p1.2
  let p2 := register_char_read ACCEL_CONFIG2_REG s1
  let v2 := (andNot p2.1 0b111111) ||| 0b111
  let s2 := register_char_write ACCEL_CONFIG2_REG v2 p2.2
  match samplerate_div odr with
  | none => (s2, some (PyErr.keyError odr))
  | some div =>
    let s3 := register_char_write SMPLRT_DIV_REG div s2
    let p4 := register_char_read GYRO_CONFIG_REG s3
    let s4 := register_char_write GYRO_CONFIG_REG (andNot p4.1 0b11) p4.2
    let p5 := register_char_read CONFIG_REG s4
    let v5 := (andNot (andNot p5.1 (1 <<< 7)) 0b111) ||| 0b1
    (register_char_write CONFIG_REG v5 p5.2, none)

/-- `self.bytes_per_sample`, set to 8 in `__init__` and never changed. -/
def bytes_per_sample : Nat := 8

/-- `get_fifo_count()`: one 2-byte bus read at FIFO_COUNTH, unpack as
big-endian unsigned 16-bit, floor-divide by `bytes_per_sample`. -/
def get_fifo_count (s : St) : Nat × St :=
  let b0 := s.regs FIFO_COUNTH_REG % 256
  let b1 := s.regs (FIFO_COUNTH_REG + 1) % 256
  let fifo_bytes := b0 * 256 + b1
  (fifo_bytes / bytes_per_sample,
   { s with trace := s.trace ++ [Ev.readMem FIFO_COUNTH_REG 2] })

/-- `read_samples_into(buf)`: reject a length that is not a multiple of
`bytes_per_sample` (ValueError), then a length over 1024 (ValueError), else
issue exactly one bulk read of `bufLen` bytes at FIFO_R_W.  Only the buffer
length is relevant to the control flow, so the buffer is passed as its
length. -/
def read_samples_into (bufLen : Nat) (s : St) : St × Option PyErr :=
  if bufLen % bytes_per_sample ≠ 0 then
    (s, some (PyErr.valueError "Buffer should be a multiple of 6"))
  else if bufLen > 1024 then
    (s, some (PyErr.valueError "Requested samples exceeds FIFO capacity"))
  else
    ({ s with trace := s.trace ++ [Ev.readMem FIFO_R_W_REG bufLen] }, none)

/-- struct's big-endian signed 16-bit: reinterpret `hi*256 + lo` in
two's complement. -/
def toInt16 (hi lo : Nat) : Int :=
  let u := (hi % 256) * 256 + lo % 256
  if u < 32768 then (u : Int) else (u : Int) - 65536

/-- First short of `struct.unpack_from('>hhh', buf, i * bytes_per_sample)`:
the X value of record `i`, from bytes 0 and 1 of the record. -/
def recordX (buf : List Nat) (i : Nat) : Int :=
  toInt16 (buf.getD (i * bytes_per_sample) 0) (buf.getD (i * bytes_per_sample + 1) 0)

/-- Second short of the same unpack: the Y value, bytes 2 and 3. -/
def recordY (buf : List Nat) (i : Nat) : Int :=
  toInt16 (buf.getD (i * bytes_per_sample + 2) 0) (buf.getD (i * bytes_per_sample + 3) 0)

/-- Third short of the same unpack: the Z value, bytes 4 and 5.  Bytes 6 and
7 of the record (temperature) are not unpacked into any output. -/
def recordZ (buf : List Nat) (i : Nat) : Int :=
  toInt16 (buf.getD (i * bytes_per_sample + 4) 0) (buf.getD (i * bytes_per_sample + 5) 0)

/-- The loop body of `deinterleave_samples`: for each record index `i`
(with `rem` records remaining), unpack three big-endian signed shorts at
byte offset `i * bytes_per_sample` and store them at index `i` of the three
output arrays. -/
def deinterleave_loop (buf : List Nat) :
    Nat → Nat → List Int → List Int → List Int →
    List Int × List Int × List Int
  | _, 0, xs, ys, zs => (xs, ys, zs)
  | i, rem + 1, xs, ys, zs =>
    deinterleave_loop buf (i + 1) rem
      (xs.set i (recordX buf i)) (ys.set i (recordY buf i))
      (zs.set i (recordZ buf i))

/-- `deinterleave_samples(buf, xs, ys, zs)`: the four `assert` statements run
before any element is written; on success the loop fills the three arrays in
place (returned here as the new array contents). -/
def deinterleave_samples (buf : List Nat) (xs ys zs : List Int) :
    Except PyErr (List Int × List Int × List Int) :=
  if buf.length % bytes_per_sample ≠ 0 then Except.error PyErr.assertionError
  else
    let samples := buf.length / bytes_per_sample
    if xs.length ≠ samples then Except.error PyErr.assertionError
    else if ys.length ≠ samples then Except.error PyErr.assertionError
    else if zs.length ≠ samples then Except.error PyErr.assertionError
    else Except.ok (deinterleave_loop buf 0 samples xs ys zs)

/-!
Gyro read path and calibration.  Successive hardware reads of the gyro output
registers return different values over time, so here the register file is
replaced by a stream `raws : Nat → Int × Int × Int` of raw big-endian-decoded
16-bit triples: the k-th call to `_register_three_shorts(_GYRO_XOUT_H)`
returns `raws k`.  `readIdx` counts the reads issued so far.
-/

/-- The driver-object state used by the gyro property and `calibrate`:
`_gyro_so` (`None` for an unrecognized selector), `_gyro_sf`, `_gyro_offset`,
plus the read counter and bus trace. -/
structure GyroDev where
  gyro_so : Option ℚ
  gyro_sf : ℚ
  gyro_offset : ℚ × ℚ × ℚ
  readIdx : Nat
  trace : List Ev
  deriving DecidableEq

/-- `_register_three_shorts(_GYRO_XOUT_H)`: one 6-byte bus read returning the
next raw triple from the stream. -/
def register_three_shorts_gyro (raws : Nat → Int × Int × Int)
    (d : GyroDev) : (Int × Int × Int) × GyroDev :=
  (raws d.readIdx,
   { d with readIdx := d.readIdx + 1,
            trace := d.trace ++ [Ev.readMem GYRO_XOUT_H 6] })

/-- The `gyro` property: read three raw shorts, scale each by `/ so * sf`,
subtract the stored offset per axis.  Python raises `TypeError` when
`_gyro_so` is `None` and `ZeroDivisionError` when it is zero; either error
occurs after the bus read, so the error carries the post-read state. -/
def gyro (raws : Nat → Int × Int × Int) (d : GyroDev) :
    Except (PyErr × GyroDev) ((ℚ × ℚ × ℚ) × GyroDev) :=
  let p := register_three_shorts_gyro raws d
  match d.gyro_so with
  | none => Except.error (PyErr.typeError, p.2)
  | some so =>
    if so = 0 then Except.error (PyErr.zeroDivisionError, p.2)
    else
      let sf := d.gyro_sf
      let o := d.gyro_offset
      Except.ok ((((p.1.1 : ℚ) / so * sf) - o.1,
                  ((p.1.2.1 : ℚ) / so * sf) - o.2.1,
                  ((p.1.2.2 : ℚ) / so * sf) - o.2.2), p.2)

/-- The `while count:` loop of `calibrate`: run `rem` more iterations, each
reading the gyro once and accumulating the per-axis sums `ox, oy, oz`. -/
def calibrate_loop (raws : Nat → Int × Int × Int) :
    Nat → GyroDev → ℚ → ℚ → ℚ →
    Except (PyErr × GyroDev) ((ℚ × ℚ × ℚ) × GyroDev)
  | 0, d, ox, oy, oz => Except.ok ((ox, oy, oz), d)
  | rem + 1, d, ox, oy, oz =>
    match gyro raws d with
    | Except.error e => Except.error e
    | Except.ok (g, d1) =>
      calibrate_loop raws rem d1 (ox + g.1) (oy + g.2.1) (oz + g.2.2)

/-- `calibrate(count, delay)`: zero the stored offset, read the gyro `count`
times accumulating sums, then divide each sum by `float(count)` — Python
raises `ZeroDivisionError` there when `count = 0`, with the offset left at
`(0.0, 0.0, 0.0)` — and store and return the means as the new offset. -/
def calibrate (count : Nat) (raws : Nat → Int × Int × Int) (d0 : GyroDev) :
    Except (PyErr × GyroDev) ((ℚ × ℚ × ℚ) × GyroDev) :=
  let d1 := { d0 with gyro_offset := (0, 0, 0) }
  let n : ℚ := (count : ℚ)
  match calibrate_loop raws count d1 0 0 0 with
  | Except.error e => Except.error e
  | Except.ok (sums, d2) =>
    if n = 0 then Except.error (PyErr.zeroDivisionError, d2)
    else
      let off := (sums.1 / n, sums.2.1 / n, sums.2.2 / n)
      Except.ok (off, { d2 with gyro_offset := off })

/-!  Theorems about the embedded driver, one per claim of the specification. -/

/-- All-zero register file with an empty trace, used to instantiate theorems
at a concrete device state. -/
def zeroSt : St := ⟨fun _ => 0, []⟩

set_option maxRecDepth 4000 in
lemma config_write_clears_fifo_mode :
    ∀ v < 256,
      ((andNot (andNot v (1 <<< 7)) (1 <<< 6)) % 256).testBit 6 = false ∧
      ((andNot (andNot v (1 <<< 7)) (1 <<< 6)) % 256).testBit 7 = false := by
  decide

set_option maxRecDepth 4000 in
lemma or_bit3_set : ∀ v < 256, ((v ||| (1 <<< 3)) % 256).testBit 3 = true := by
  decide

set_option maxRecDepth 4000 in
lemma or_bit5_set : ∀ v < 256, ((v ||| (1 <<< 5)) % 256).testBit 5 = true := by
  decide

set_option maxRecDepth 4000 in
lemma or_bits62_set :
    ∀ v < 256,
      (((v ||| (1 <<< 6)) ||| (1 <<< 2)) % 256).testBit 6 = true ∧
      (((v ||| (1 <<< 6)) ||| (1 <<< 2)) % 256).testBit 2 = true := by
  decide

/-- Claim C2: `fifo_enable` never consults its `enable` argument: for any two
arguments (of any types) and any device state it performs the identical
read/write sequence; in particular the call always clears the two FIFO-mode
bits of CONFIG, sets the accelerometer-to-FIFO routing bit of FIFO_EN, and
sets the FIFO enable and FIFO reset bits of USER_CTRL. -/
theorem fifo_enable_ignores_argument :
    (∀ (α β : Type) (a : α) (b : β) (s : St), fifo_enable a s = fifo_enable b s)
    ∧ ∀ s : St, ∃ v1 v2 v3 : Nat,
        (fifo_enable False s).trace = s.trace ++
          [Ev.readMem CONFIG_REG 1, Ev.writeMem CONFIG_REG [v1],
           Ev.readMem FIFO_EN_REG 1, Ev.writeMem FIFO_EN_REG [v2],
           Ev.readMem USER_CTRL_REG 1, Ev.writeMem USER_CTRL_REG [v3]]
        ∧ v1.testBit 6 = false ∧ v1.testBit 7 = false
        ∧ v2.testBit 3 = true ∧ v3.testBit 6 = true ∧ v3.testBit 2 = true := by
  constructor
  · intro α β a b s; rfl
  · intro s
    refine ⟨(andNot (andNot (s.regs CONFIG_REG % 256) (1 <<< 7)) (1 <<< 6)) % 256,
            (s.regs FIFO_EN_REG % 256 ||| (1 <<< 3)) % 256,
            ((s.regs USER_CTRL_REG % 256 ||| (1 <<< 6)) ||| (1 <<< 2)) % 256,
            ?_, ?_, ?_, ?_, ?_, ?_⟩
    · simp [fifo_enable, register_char_read, register_char_write,
            CONFIG_REG, FIFO_EN_REG, USER_CTRL_REG]
    · exact (config_write_clears_fifo_mode _ (Nat.mod_lt _ (by norm_num))).1
    · exact (config_write_clears_fifo_mode _ (Nat.mod_lt _ (by norm_num))).2
    · exact or_bit3_set _ (Nat.mod_lt _ (by norm_num))
    · exact (or_bits62_set _ (Nat.mod_lt _ (by norm_num))).1
    · exact (or_bits62_set _ (Nat.mod_lt _ (by norm_num))).2

/-- Claim C6: `get_fifo_count` returns the floor of the big-endian 16-bit
FIFO byte count divided by 8: the quotient times 8 never exceeds the byte
count (truncation, never rounding up). -/
theorem get_fifo_count_floor_div :
    ∀ (s : St) (b : Nat),
      s.regs FIFO_COUNTH_REG % 256 * 256 + s.regs (FIFO_COUNTH_REG + 1) % 256 = b →
      (get_fifo_count s).1 = b / 8 ∧ 8 * (b / 8) ≤ b ∧ b < 8 * (b / 8) + 8 := by
  intro s b hb
  refine ⟨?_, ?_, ?_⟩
  · simp only [get_fifo_count, bytes_per_sample, hb]
  · have := Nat.div_add_mod b 8
    omega
  · have h1 := Nat.div_add_mod b 8
    have h2 : b % 8 < 8 := Nat.mod_lt b (by norm_num)
    omega

/-- Concrete register state whose FIFO count registers hold 1001 = 0x03E9
(125 full samples plus one spare byte). -/
def fifoCountSt : St :=
  ⟨fun r => if r = 0x72 then 3 else if r = 0x73 then 233 else 0, []⟩

/-- Witness for `get_fifo_count_floor_div` at byte count 1001. -/
theorem get_fifo_count_floor_div_witness :
    (get_fifo_count fifoCountSt).1 = 1001 / 8 ∧
    8 * (1001 / 8) ≤ 1001 ∧ 1001 < 8 * (1001 / 8) + 8 :=
  get_fifo_count_floor_div fifoCountSt 1001 (by decide)

/-- Claim C7: for each of the five defined ODR values, `set_odr` succeeds and
issues a write of the documented divisor (10→99, 50→19, 100→9, 200→4, 250→3)
to the sample-rate divisor register; for every other value it raises
`KeyError` (the unsupported-rate failure). -/
theorem set_odr_divisor_table :
    (∀ (odr div : Nat) (s : St),
       (odr, div) ∈ [(10, 99), (50, 19), (100, 9), (200, 4), (250, 3)] →
       (set_odr odr s).2 = none ∧
       Ev.writeMem SMPLRT_DIV_REG [div] ∈ (set_odr odr s).1.trace)
    ∧ ∀ (odr : Nat) (s : St), odr ∉ ([10, 50, 100, 200, 250] : List Nat) →
        (set_odr odr s).2 = some (PyErr.keyError odr) := by
  constructor
  · intro odr div s h
    fin_cases h <;>
      simp [set_odr, samplerate_div, register_char_read, register_char_write]
  · intro odr s h
    simp only [List.mem_cons, List.not_mem_nil, or_false, not_or] at h
    obtain ⟨h1, h2, h3, h4, h5⟩ := h
    simp [set_odr, samplerate_div, h1, h2, h3, h4, h5,
          register_char_read, register_char_write]

/-- Witness for `set_odr_divisor_table`: at 10 Hz the divisor 99 is written
and the call succeeds; at the unsupported rate 7 Hz the call raises
`KeyError(7)`. -/
theorem set_odr_divisor_table_witness :
    ((set_odr 10 zeroSt).2 = none ∧
     Ev.writeMem SMPLRT_DIV_REG [99] ∈ (set_odr 10 zeroSt).1.trace)
    ∧ (set_odr 7 zeroSt).2 = some (PyErr.keyError 7) :=
  ⟨set_odr_divisor_table.1 10 99 zeroSt (by decide),
   set_odr_divisor_table.2 7 zeroSt (by decide)⟩

/-- Claim C8: the scale-setting calls `_accel_fs` / `_gyro_fs` return (for
storage into `_accel_so` / `_gyro_so` at construction, before any conversion
is requested) exactly the documented sensitivity divisors, and each call
writes its selector to the corresponding configuration register. -/
theorem scale_divisor_table :
    ∀ s : St,
      (accel_fs ACCEL_FS_SEL_2G s).1 = some 16384 ∧
      (accel_fs ACCEL_FS_SEL_4G s).1 = some 8192 ∧
      (accel_fs ACCEL_FS_SEL_8G s).1 = some 4096 ∧
      (accel_fs ACCEL_FS_SEL_16G s).1 = some 2048 ∧
      (gyro_fs GYRO_FS_SEL_250DPS s).1 = some 131 ∧
      (gyro_fs GYRO_FS_SEL_500DPS s).1 = some 62.5 ∧
      (gyro_fs GYRO_FS_SEL_1000DPS s).1 = some 32.8 ∧
      (gyro_fs GYRO_FS_SEL_2000DPS s).1 = some 16.4 ∧
      (∀ v : Nat, (accel_fs v s).2.trace =
        s.trace ++ [Ev.writeMem ACCEL_CONFIG_REG [v % 256]]) ∧
      (∀ v : Nat, (gyro_fs v s).2.trace =
        s.trace ++ [Ev.writeMem GYRO_CONFIG_REG [v % 256]]) := by
  intro s
  refine ⟨rfl, rfl, rfl, rfl, rfl, rfl, rfl, rfl, ?_, ?_⟩
  · intro v; simp [accel_fs, register_char_write]
  · intro v; simp [gyro_fs, register_char_write]

/-- Claim C1 counterexample: `set_odr 42` on an all-zero register state
raises `KeyError(42)`, yet the PWR_MGMT_1 register has been changed from 0 to
32 by the call — the device register state is NOT unchanged when the call
aborts. -/
theorem set_odr_unsupported_state_changed :
    (set_odr 42 zeroSt).2 = some (PyErr.keyError 42)
    ∧ (set_odr 42 zeroSt).1.regs PWR_MGMT_1_REG = 32
    ∧ zeroSt.regs PWR_MGMT_1_REG = 0
    ∧ (set_odr 42 zeroSt).1.trace ≠ [] := by
  refine ⟨rfl, rfl, rfl, ?_⟩
  decide

/-- Claim C1 (amended): for every rate `odr` outside {10, 50, 100, 200, 250}
`set_odr` raises `KeyError(odr)`, but only after two register writes of the
call have already taken effect: the call's trace is exactly a read and a
write of PWR_MGMT_1 followed by a read and a write of ACCEL_CONFIG2, the
written PWR_MGMT_1 byte has the low-power CYCLE bit (bit 5) set, and no
write to the sample-rate divisor register occurs. -/
theorem set_odr_unsupported_partial_writes :
    ∀ (odr : Nat) (s : St), odr ∉ ([10, 50, 100, 200, 250] : List Nat) →
      (set_odr odr s).2 = some (PyErr.keyError odr) ∧
      (∃ v w : Nat,
        (set_odr odr s).1.trace = s.trace ++
          [Ev.readMem PWR_MGMT_1_REG 1, Ev.writeMem PWR_MGMT_1_REG [v],
           Ev.readMem ACCEL_CONFIG2_REG 1, Ev.writeMem ACCEL_CONFIG2_REG [w]]
        ∧ v.testBit 5 = true) ∧
      (∀ data : List Nat,
        Ev.writeMem SMPLRT_DIV_REG data ∈ (set_odr odr s).1.trace →
        Ev.writeMem SMPLRT_DIV_REG data ∈ s.trace) := by
  intro odr s h
  simp only [List.mem_cons, List.not_mem_nil, or_false, not_or] at h
  obtain ⟨h1, h2, h3, h4, h5⟩ := h
  have hnone : samplerate_div odr = none := by
    simp [samplerate_div, h1, h2, h3, h4, h5]
  refine ⟨?_, ?_, ?_⟩
  · simp [set_odr, hnone]
  · refine ⟨(s.regs PWR_MGMT_1_REG % 256 ||| (1 <<< 5)) % 256,
            ((andNot (s.regs ACCEL_CONFIG2_REG % 256) 63) ||| 7) % 256, ?_, ?_⟩
    · simp [set_odr, hnone, register_char_read, register_char_write,
            PWR_MGMT_1_REG, ACCEL_CONFIG2_REG]
    · exact or_bit5_set _ (Nat.mod_lt _ (by norm_num))
  · intro data hd
    simp only [set_odr, hnone, register_char_read, register_char_write] at hd
    simp only [List.append_assoc, List.mem_append, List.mem_cons,
               List.not_mem_nil, or_false] at hd
    rcases hd with hd | hd
    · exact hd
    · exfalso
      rcases hd with h | h | h | h <;>
        simp [SMPLRT_DIV_REG, PWR_MGMT_1_REG, ACCEL_CONFIG2_REG] at h

/-- Witness for `set_odr_unsupported_partial_writes` at the unsupported rate
42 Hz on the all-zero register state. -/
theorem set_odr_unsupported_partial_writes_witness :
    (set_odr 42 zeroSt).2 = some (PyErr.keyError 42) ∧
    (∃ v w : Nat,
      (set_odr 42 zeroSt).1.trace = zeroSt.trace ++
        [Ev.readMem PWR_MGMT_1_REG 1, Ev.writeMem PWR_MGMT_1_REG [v],
         Ev.readMem ACCEL_CONFIG2_REG 1, Ev.writeMem ACCEL_CONFIG2_REG [w]]
      ∧ v.testBit 5 = true) ∧
    (∀ data : List Nat,
      Ev.writeMem SMPLRT_DIV_REG data ∈ (set_odr 42 zeroSt).1.trace →
      Ev.writeMem SMPLRT_DIV_REG data ∈ zeroSt.trace) :=
  set_odr_unsupported_partial_writes 42 zeroSt (by decide)

/-- Claim C3 counterexample: a buffer of length 1025 exceeds 1024 bytes, yet
`read_samples_into` fails with the multiple-of-8 `ValueError` (the
InvalidArgumentError), not with the capacity `ValueError`: the multiple-of-8
check runs first, so not every over-capacity length yields the capacity
error. -/
theorem read_samples_into_1025_not_capacity_error :
    1025 > 1024 ∧
    (read_samples_into 1025 zeroSt).2 =
      some (PyErr.valueError "Buffer should be a multiple of 6") ∧
    (read_samples_into 1025 zeroSt).2 ≠
      some (PyErr.valueError "Requested samples exceeds FIFO capacity") := by
  refine ⟨by norm_num, rfl, ?_⟩
  decide

/-- Claim C3 (amended): `read_samples_into` fails with the multiple-of-8
`ValueError` for every length that is not a multiple of 8 (even one over
1024); fails with the capacity `ValueError` for every multiple of 8 greater
than 1024; in both failure cases the state (and hence the bus trace) is
untouched; and for every length that is a multiple of 8 and at most 1024 it
issues exactly one bulk read of that many bytes at the FIFO data register. -/
theorem read_samples_into_checks :
    ∀ (bufLen : Nat) (s : St),
      (bufLen % 8 ≠ 0 →
        read_samples_into bufLen s =
          (s, some (PyErr.valueError "Buffer should be a multiple of 6"))) ∧
      (bufLen % 8 = 0 → bufLen > 1024 →
        read_samples_into bufLen s =
          (s, some (PyErr.valueError "Requested samples exceeds FIFO capacity"))) ∧
      (bufLen % 8 = 0 → bufLen ≤ 1024 →
        read_samples_into bufLen s =
          ({ s with trace := s.trace ++ [Ev.readMem FIFO_R_W_REG bufLen] },
           none)) := by
  intro bufLen s
  refine ⟨fun h => ?_, fun h h' => ?_, fun h h' => ?_⟩
  · simp [read_samples_into, bytes_per_sample, h]
  · simp [read_samples_into, bytes_per_sample, h, h', Nat.not_le.mpr h']
  · simp [read_samples_into, bytes_per_sample, h, Nat.not_lt.mpr h']

/-- Witness for `read_samples_into_checks` at lengths 7 (not a multiple of
8), 1032 (a multiple of 8 over capacity) and 8 (valid). -/
theorem read_samples_into_checks_witness :
    read_samples_into 7 zeroSt =
      (zeroSt, some (PyErr.valueError "Buffer should be a multiple of 6")) ∧
    read_samples_into 1032 zeroSt =
      (zeroSt, some (PyErr.valueError "Requested samples exceeds FIFO capacity")) ∧
    read_samples_into 8 zeroSt =
      ({ zeroSt with trace := [Ev.readMem FIFO_R_W_REG 8] }, none) :=
  ⟨(read_samples_into_checks 7 zeroSt).1 (by decide),
   (read_samples_into_checks 1032 zeroSt).2.1 (by decide) (by norm_num),
   (read_samples_into_checks 8 zeroSt).2.2 (by decide) (by norm_num)⟩

lemma getD_set (l : List Int) (i j : Nat) (v : Int) :
    (l.set i v).getD j 0 = if i = j ∧ i < l.length then v else l.getD j 0 := by
  rcases eq_or_ne i j with rfl | hne
  · by_cases hl : i < l.length
    · rw [if_pos ⟨rfl, hl⟩, List.getD_eq_getElem?_getD,
          List.getElem?_set_eq_of_lt v hl]
      rfl
    · rw [if_neg (by tauto), List.set_eq_of_length_le (Nat.le_of_not_lt hl)]
  · rw [if_neg (by tauto), List.getD_eq_getElem?_getD,
        List.getElem?_set_ne hne, List.getD_eq_getElem?_getD]

lemma set_getD_step (l : List Int) (f : Nat → Int) (i j k : Nat) :
    (if i + 1 ≤ j ∧ j < i + 1 + k ∧ j < l.length then f j
     else (l.set i (f i)).getD j 0) =
    (if i ≤ j ∧ j < i + (k + 1) ∧ j < l.length then f j else l.getD j 0) := by
  rcases eq_or_ne i j with rfl | hne
  · rw [if_neg (by omega), getD_set]
    by_cases hl : i < l.length
    · rw [if_pos ⟨rfl, hl⟩, if_pos (by omega)]
    · rw [if_neg (by tauto), if_neg (by omega)]
  · rw [getD_set]
    by_cases hC : i + 1 ≤ j ∧ j < i + 1 + k ∧ j < l.length
    · rw [if_pos hC, if_pos (by omega : i ≤ j ∧ j < i + (k + 1) ∧ j < l.length)]
    · rw [if_neg hC, if_neg (by tauto : ¬(i = j ∧ i < l.length)),
          if_neg (by omega : ¬(i ≤ j ∧ j < i + (k + 1) ∧ j < l.length))]

lemma deinterleave_loop_length (buf : List Nat) :
    ∀ (rem i : Nat) (xs ys zs : List Int),
      (deinterleave_loop buf i rem xs ys zs).1.length = xs.length ∧
      (deinterleave_loop buf i rem xs ys zs).2.1.length = ys.length ∧
      (deinterleave_loop buf i rem xs ys zs).2.2.length = zs.length := by
  intro rem
  induction rem with
  | zero => intro i xs ys zs; simp [deinterleave_loop]
  | succ k ih =>
    intro i xs ys zs
    simp only [deinterleave_loop]
    obtain ⟨h1, h2, h3⟩ := ih (i + 1) (xs.set i (recordX buf i))
      (ys.set i (recordY buf i)) (zs.set i (recordZ buf i))
    rw [h1, h2, h3, List.length_set, List.length_set, List.length_set]
    exact ⟨rfl, rfl, rfl⟩

lemma deinterleave_loop_getD (buf : List Nat) :
    ∀ (rem i : Nat) (xs ys zs : List Int) (j : Nat),
      ((deinterleave_loop buf i rem xs ys zs).1.getD j 0 =
        if i ≤ j ∧ j < i + rem ∧ j < xs.length then recordX buf j
        else xs.getD j 0) ∧
      ((deinterleave_loop buf i rem xs ys zs).2.1.getD j 0 =
        if i ≤ j ∧ j < i + rem ∧ j < ys.length then recordY buf j
        else ys.getD j 0) ∧
      ((deinterleave_loop buf i rem xs ys zs).2.2.getD j 0 =
        if i ≤ j ∧ j < i + rem ∧ j < zs.length then recordZ buf j
        else zs.getD j 0) := by
  intro rem
  induction rem with
  | zero =>
    intro i xs ys zs j
    simp only [deinterleave_loop]
    refine ⟨?_, ?_, ?_⟩ <;> rw [if_neg (by omega)]
  | succ k ih =>
    intro i xs ys zs j
    simp only [deinterleave_loop]
    obtain ⟨h1, h2, h3⟩ := ih (i + 1) (xs.set i (recordX buf i))
      (ys.set i (recordY buf i)) (zs.set i (recordZ buf i)) j
    refine ⟨?_, ?_, ?_⟩
    · rw [h1, List.length_set]; exact set_getD_step xs (recordX buf) i j k
    · rw [h2, List.length_set]; exact set_getD_step ys (recordY buf) i j k
    · rw [h3, List.length_set]; exact set_getD_step zs (recordZ buf) i j k

lemma recordX_congr (buf buf2 : List Nat)
    (hagree : ∀ p, p % 8 < 6 → buf.getD p 0 = buf2.getD p 0) (i : Nat) :
    recordX buf i = recordX buf2 i := by
  unfold recordX
  rw [hagree _ (by simp only [bytes_per_sample]; omega),
      hagree _ (by simp only [bytes_per_sample]; omega)]

lemma recordY_congr (buf buf2 : List Nat)
    (hagree : ∀ p, p % 8 < 6 → buf.getD p 0 = buf2.getD p 0) (i : Nat) :
    recordY buf i = recordY buf2 i := by
  unfold recordY
  rw [hagree _ (by simp only [bytes_per_sample]; omega),
      hagree _ (by simp only [bytes_per_sample]; omega)]

lemma recordZ_congr (buf buf2 : List Nat)
    (hagree : ∀ p, p % 8 < 6 → buf.getD p 0 = buf2.getD p 0) (i : Nat) :
    recordZ buf i = recordZ buf2 i := by
  unfold recordZ
  rw [hagree _ (by simp only [bytes_per_sample]; omega),
      hagree _ (by simp only [bytes_per_sample]; omega)]

lemma deinterleave_loop_congr (buf buf2 : List Nat)
    (hagree : ∀ p, p % 8 < 6 → buf.getD p 0 = buf2.getD p 0) :
    ∀ (rem i : Nat) (xs ys zs : List Int),
      deinterleave_loop buf i rem xs ys zs =
      deinterleave_loop buf2 i rem xs ys zs := by
  intro rem
  induction rem with
  | zero => intro i xs ys zs; simp [deinterleave_loop]
  | succ k ih =>
    intro i xs ys zs
    simp only [deinterleave_loop]
    rw [recordX_congr buf buf2 hagree i, recordY_congr buf buf2 hagree i,
        recordZ_congr buf buf2 hagree i]
    exact ih (i + 1) _ _ _

/-- Claim C4: for a buffer of n 8-byte records and output arrays of length n,
`deinterleave_samples` succeeds and stores in `xs[j], ys[j], zs[j]` the three
big-endian signed 16-bit values of record j, in input order; the result never
depends on the two trailing temperature bytes of any record (they are written
nowhere); and on the single record 00 64 FF CE 03 E8 00 00 it yields X=100,
Y=-50, Z=1000. -/
theorem deinterleave_decodes :
    (∀ (n : Nat) (buf : List Nat) (xs ys zs : List Int),
       buf.length = 8 * n → xs.length = n → ys.length = n → zs.length = n →
       ∃ xs2 ys2 zs2,
         deinterleave_samples buf xs ys zs = Except.ok (xs2, ys2, zs2) ∧
         xs2.length = n ∧ ys2.length = n ∧ zs2.length = n ∧
         ∀ j, j < n →
           xs2.getD j 0 = recordX buf j ∧ ys2.getD j 0 = recordY buf j ∧
           zs2.getD j 0 = recordZ buf j)
    ∧ (∀ (buf buf2 : List Nat) (xs ys zs : List Int),
       buf.length = buf2.length →
       (∀ p, p % 8 < 6 → buf.getD p 0 = buf2.getD p 0) →
       deinterleave_samples buf xs ys zs = deinterleave_samples buf2 xs ys zs)
    ∧ deinterleave_samples [0x00, 0x64, 0xFF, 0xCE, 0x03, 0xE8, 0x00, 0x00]
        [0] [0] [0] = Except.ok ([100], [-50], [1000]) := by
  refine ⟨?_, ?_, ?_⟩
  · intro n buf xs ys zs hb hx hy hz
    have hmod : buf.length % bytes_per_sample = 0 := by
      simp [bytes_per_sample, hb, Nat.mul_mod_right]
    have hsamples : buf.length / bytes_per_sample = n := by
      simp [bytes_per_sample, hb]
    refine ⟨(deinterleave_loop buf 0 n xs ys zs).1,
            (deinterleave_loop buf 0 n xs ys zs).2.1,
            (deinterleave_loop buf 0 n xs ys zs).2.2, ?_, ?_, ?_, ?_, ?_⟩
    · simp [deinterleave_samples, hmod, hsamples, hx, hy, hz]
    · exact (deinterleave_loop_length buf n 0 xs ys zs).1.trans hx
    · exact (deinterleave_loop_length buf n 0 xs ys zs).2.1.trans hy
    · exact (deinterleave_loop_length buf n 0 xs ys zs).2.2.trans hz
    · intro j hj
      obtain ⟨g1, g2, g3⟩ := deinterleave_loop_getD buf n 0 xs ys zs j
      refine ⟨?_, ?_, ?_⟩
      · rw [g1, if_pos ⟨Nat.zero_le j, by omega, by omega⟩]
      · rw [g2, if_pos ⟨Nat.zero_le j, by omega, by omega⟩]
      · rw [g3, if_pos ⟨Nat.zero_le j, by omega, by omega⟩]
  · intro buf buf2 xs ys zs hlen hagree
    simp only [deinterleave_samples]
    rw [hlen, deinterleave_loop_congr buf buf2 hagree]
  · rfl

/-- Witness for `deinterleave_decodes` on the single example record. -/
theorem deinterleave_decodes_witness :
    ∃ xs2 ys2 zs2,
      deinterleave_samples [0x00, 0x64, 0xFF, 0xCE, 0x03, 0xE8, 0x00, 0x00]
        [0] [0] [0] = Except.ok (xs2, ys2, zs2) ∧
      xs2.length = 1 ∧ ys2.length = 1 ∧ zs2.length = 1 ∧
      ∀ j, j < 1 →
        xs2.getD j 0 = recordX [0x00, 0x64, 0xFF, 0xCE, 0x03, 0xE8, 0x00, 0x00] j ∧
        ys2.getD j 0 = recordY [0x00, 0x64, 0xFF, 0xCE, 0x03, 0xE8, 0x00, 0x00] j ∧
        zs2.getD j 0 = recordZ [0x00, 0x64, 0xFF, 0xCE, 0x03, 0xE8, 0x00, 0x00] j :=
  deinterleave_decodes.1 1 [0x00, 0x64, 0xFF, 0xCE, 0x03, 0xE8, 0x00, 0x00]
    [0] [0] [0] rfl rfl rfl rfl

/-- Claim C5: when the buffer length is not a multiple of 8, or any of the
three output arrays does not have length `len(buf) / 8`, the `assert`
statements of `deinterleave_samples` fail (`AssertionError`, the equivalent
precondition-violation error) before the write loop runs, so nothing is
written into the outputs. -/
theorem deinterleave_precondition :
    ∀ (buf : List Nat) (xs ys zs : List Int),
      (buf.length % 8 ≠ 0 ∨ xs.length ≠ buf.length / 8 ∨
       ys.length ≠ buf.length / 8 ∨ zs.length ≠ buf.length / 8) →
      deinterleave_samples buf xs ys zs = Except.error PyErr.assertionError := by
  intro buf xs ys zs h
  simp only [deinterleave_samples, bytes_per_sample]
  split_ifs <;> first | rfl | tauto

/-- Witness for `deinterleave_precondition`: one full 8-byte record but an
empty `xs` (length 0 ≠ 1), as in the spec's decode-precondition test. -/
theorem deinterleave_precondition_witness :
    deinterleave_samples [1, 2, 3, 4, 5, 6, 7, 8] [] [0] [0] =
      Except.error PyErr.assertionError :=
  deinterleave_precondition [1, 2, 3, 4, 5, 6, 7, 8] [] [0] [0]
    (Or.inr (Or.inl (by decide)))

/-- The k-th gyro reading as produced with the offset reset to zero: each raw
axis value scaled by `/ so * sf`. -/
def gyroRead (raws : Nat → Int × Int × Int) (so sf : ℚ) (k : Nat) : ℚ × ℚ × ℚ :=
  (((raws k).1 : ℚ) / so * sf, ((raws k).2.1 : ℚ) / so * sf,
   ((raws k).2.2 : ℚ) / so * sf)

set_option maxRecDepth 8000 in
lemma calibrate_loop_ok (raws : Nat → Int × Int × Int) (q : ℚ) (hq : q ≠ 0) :
    ∀ (rem : Nat) (d : GyroDev) (ox oy oz : ℚ),
      d.gyro_so = some q → d.gyro_offset = (0, 0, 0) →
      calibrate_loop raws rem d ox oy oz =
        Except.ok
          ((ox + ∑ j ∈ Finset.range rem, (gyroRead raws q d.gyro_sf (d.readIdx + j)).1,
            oy + ∑ j ∈ Finset.range rem, (gyroRead raws q d.gyro_sf (d.readIdx + j)).2.1,
            oz + ∑ j ∈ Finset.range rem, (gyroRead raws q d.gyro_sf (d.readIdx + j)).2.2),
           { d with readIdx := d.readIdx + rem,
                    trace := d.trace ++ List.replicate rem (Ev.readMem GYRO_XOUT_H 6) }) := by
  intro rem
  induction rem with
  | zero =>
    intro d ox oy oz hso hoff
    simp [calibrate_loop]
  | succ k ih =>
    intro d ox oy oz hso hoff
    have hstep := ih
      { d with readIdx := d.readIdx + 1,
               trace := d.trace ++ [Ev.readMem GYRO_XOUT_H 6] }
      (ox + (((raws d.readIdx).1 : ℚ) / q * d.gyro_sf - 0))
      (oy + (((raws d.readIdx).2.1 : ℚ) / q * d.gyro_sf - 0))
      (oz + (((raws d.readIdx).2.2 : ℚ) / q * d.gyro_sf - 0))
      hso hoff
    simp only [calibrate_loop, gyro, register_three_shorts_gyro, hso, hq,
               if_false, hoff] at hstep ⊢
    rw [hstep]
    simp only [Except.ok.injEq, Prod.mk.injEq]
    have harg : ∀ j : Nat, d.readIdx + (j + 1) = d.readIdx + 1 + j :=
      fun j => by omega
    refine ⟨⟨?_, ?_, ?_⟩, ?_⟩
    · rw [Finset.sum_range_succ']
      have hsc : ∑ j ∈ Finset.range k,
            (gyroRead raws q d.gyro_sf (d.readIdx + (j + 1))).1 =
          ∑ j ∈ Finset.range k, (gyroRead raws q d.gyro_sf (d.readIdx + 1 + j)).1 :=
        Finset.sum_congr rfl (fun j hj => by rw [harg j])
      rw [hsc]
      simp only [Nat.add_zero, gyroRead]
      ring
    · rw [Finset.sum_range_succ']
      have hsc : ∑ j ∈ Finset.range k,
            (gyroRead raws q d.gyro_sf (d.readIdx + (j + 1))).2.1 =
          ∑ j ∈ Finset.range k, (gyroRead raws q d.gyro_sf (d.readIdx + 1 + j)).2.1 :=
        Finset.sum_congr rfl (fun j hj => by rw [harg j])
      rw [hsc]
      simp only [Nat.add_zero, gyroRead]
      ring
    · rw [Finset.sum_range_succ']
      have hsc : ∑ j ∈ Finset.range k,
            (gyroRead raws q d.gyro_sf (d.readIdx + (j + 1))).2.2 =
          ∑ j ∈ Finset.range k, (gyroRead raws q d.gyro_sf (d.readIdx + 1 + j)).2.2 :=
        Finset.sum_congr rfl (fun j hj => by rw [harg j])
      rw [hsc]
      simp only [Nat.add_zero, gyroRead]
      ring
    · rw [show d.readIdx + 1 + k = d.readIdx + (k + 1) from by omega,
          List.append_assoc, List.singleton_append, ← List.replicate_succ]

/-- Synthetic raw gyro stream producing readings (2,0,0), (4,0,0), (0,0,0),
(2,0,0) on a device with unit sensitivity and unit scale factor. -/
def calRaws (k : Nat) : Int × Int × Int :=
  if k = 0 then (2, 0, 0)
  else if k = 1 then (4, 0, 0)
  else if k = 2 then (0, 0, 0)
  else (2, 0, 0)

/-- A device with unit sensitivity divisor and scale factor and a stale
nonzero offset, about to be calibrated. -/
def calDev : GyroDev :=
  { gyro_so := some 1, gyro_sf := 1, gyro_offset := (5, 5, 5),
    readIdx := 0, trace := [] }

/-- Claim C9: for every positive count, `calibrate` reads the gyro `count`
times with the offset reset to zero, returns the per-axis arithmetic mean of
those readings and stores it, in whole, as the new offset; over the readings
(2,0,0), (4,0,0), (0,0,0), (2,0,0) it returns and stores (2, 0, 0). -/
theorem calibrate_mean :
    (∀ (count : Nat) (raws : Nat → Int × Int × Int) (d0 : GyroDev) (q : ℚ),
      0 < count → d0.gyro_so = some q → q ≠ 0 → d0.readIdx = 0 →
      ∃ d1 : GyroDev,
        calibrate count raws d0 =
          Except.ok
            (((∑ j ∈ Finset.range count, (gyroRead raws q d0.gyro_sf j).1) / count,
              (∑ j ∈ Finset.range count, (gyroRead raws q d0.gyro_sf j).2.1) / count,
              (∑ j ∈ Finset.range count, (gyroRead raws q d0.gyro_sf j).2.2) / count),
             d1) ∧
        d1.gyro_offset =
          ((∑ j ∈ Finset.range count, (gyroRead raws q d0.gyro_sf j).1) / count,
           (∑ j ∈ Finset.range count, (gyroRead raws q d0.gyro_sf j).2.1) / count,
           (∑ j ∈ Finset.range count, (gyroRead raws q d0.gyro_sf j).2.2) / count) ∧
        d1.readIdx = count ∧
        d1.trace = d0.trace ++ List.replicate count (Ev.readMem GYRO_XOUT_H 6))
    ∧ ((calibrate 4 calRaws calDev).toOption.map Prod.fst = some (2, 0, 0) ∧
       (calibrate 4 calRaws calDev).toOption.map (fun p => p.2.gyro_offset) =
         some (2, 0, 0)) := by
  constructor
  · intro count raws d0 q hc hso hq hidx
    have hqn : ((count : ℚ)) ≠ 0 := Nat.cast_ne_zero.mpr hc.ne'
    have hloop := calibrate_loop_ok raws q hq count
      { d0 with gyro_offset := (0, 0, 0) } 0 0 0 hso rfl
    refine ⟨{ d0 with
              gyro_offset :=
                ((∑ j ∈ Finset.range count, (gyroRead raws q d0.gyro_sf j).1) / count,
                 (∑ j ∈ Finset.range count, (gyroRead raws q d0.gyro_sf j).2.1) / count,
                 (∑ j ∈ Finset.range count, (gyroRead raws q d0.gyro_sf j).2.2) / count),
              readIdx := count,
              trace := d0.trace ++ List.replicate count (Ev.readMem GYRO_XOUT_H 6) },
            ?_, rfl, rfl, rfl⟩
    · simp only [calibrate]
      rw [hloop]
      simp [hidx, hqn]
  · constructor
    · simp [calibrate, calibrate_loop, gyro, register_three_shorts_gyro,
            calDev, calRaws, Except.toOption]
      norm_num
    · simp [calibrate, calibrate_loop, gyro, register_three_shorts_gyro,
            calDev, calRaws, Except.toOption]
      norm_num

/-- Claim C10: `calibrate(0)` fails with `ZeroDivisionError`, and the state
it leaves behind has the gyro offset already replaced by (0, 0, 0) — the
pre-call offset is lost even though the call fails — while no gyro read was
issued (the trace is unchanged). -/
theorem calibrate_zero_count :
    ∀ (raws : Nat → Int × Int × Int) (d0 : GyroDev),
      calibrate 0 raws d0 =
        Except.error (PyErr.zeroDivisionError,
          { d0 with gyro_offset := (0, 0, 0) }) ∧
      ({ d0 with gyro_offset := ((0 : ℚ), (0 : ℚ), (0 : ℚ)) } : GyroDev).trace =
        d0.trace := by
  intro raws d0
  constructor
  · simp [calibrate, calibrate_loop]
  · rfl

/-- Witness for `calibrate_mean` at count 4 on the concrete device with unit
sensitivity and scale factor. -/
theorem calibrate_mean_witness :
    ∃ d1 : GyroDev,
      calibrate 4 calRaws calDev =
        Except.ok
          (((∑ j ∈ Finset.range 4, (gyroRead calRaws 1 calDev.gyro_sf j).1) / ((4 : Nat) : ℚ),
            (∑ j ∈ Finset.range 4, (gyroRead calRaws 1 calDev.gyro_sf j).2.1) / ((4 : Nat) : ℚ),
            (∑ j ∈ Finset.range 4, (gyroRead calRaws 1 calDev.gyro_sf j).2.2) / ((4 : Nat) : ℚ)),
           d1) ∧
      d1.gyro_offset =
        ((∑ j ∈ Finset.range 4, (gyroRead calRaws 1 calDev.gyro_sf j).1) / ((4 : Nat) : ℚ),
         (∑ j ∈ Finset.range 4, (gyroRead calRaws 1 calDev.gyro_sf j).2.1) / ((4 : Nat) : ℚ),
         (∑ j ∈ Finset.range 4, (gyroRead calRaws 1 calDev.gyro_sf j).2.2) / ((4 : Nat) : ℚ)) ∧
      d1.readIdx = 4 ∧
      d1.trace = calDev.trace ++ List.replicate 4 (Ev.readMem GYRO_XOUT_H 6) :=
  calibrate_mean.1 4 calRaws calDev 1 (by norm_num) rfl one_ne_zero rfl
